import Mathlib

/-!
# Verification of the x-safe-post safety/timing engine

Shallow embedding of `src/index.ts` (class `XSafePost`): content
deduplication and similarity detection, daily quota with lazy rollover,
rate-limit tracking, quiet hours, jittered delay computation, and the
`post` coordinator.

Modelling conventions:
* Instants are epoch milliseconds as `Int` (`Date.now()`).
* JS `number` values that can become fractional (delays after jitter,
  minutes ratios, similarity scores) are `ℚ`; `Math.random()` is an
  explicit parameter `r : ℚ` with `0 ≤ r < 1`.
* The md5 digest of `hashContent` is idealised as the normalized text
  itself (md5 is treated as injective, its cryptographic intent); every
  claim only depends on equality/inequality of digests.
* Human-readable message strings built with interpolation (time-ago
  formatting, ISO dates) are abstracted: `SafetyError`/`SafetyWarning`
  constructors carry the numeric payloads instead.
* `new Date().getHours()` (machine-local hour) and `getQuietHoursEnd()`
  (local-calendar arithmetic) are passed in as parameters `hour` and
  `quietEnd`; `getTodayString()` is the parameter `today`.
* The external publisher call is a `PublishOutcome` parameter; the `conf`
  store is explicit state (`StoreSchema`) threaded through the functions.
-/

-- ============================================
-- Data model (StoreSchema and settings, src/index.ts lines 32-122)
-- ============================================

/-- `SafetySettings` merged with `DEFAULT_SAFETY` (all fields present). -/
structure SafetySettings where
  minIntervalMinutes : Int
  maxPostsPerDay : Int
  enableJitter : Bool
  maxJitterMinutes : ℚ
  dedupeWindowDays : Int
  quietHoursStart : Int
  quietHoursEnd : Int
  enableQuietHours : Bool
  timezone : String
deriving DecidableEq, Repr

/-- `DEFAULT_SAFETY` (src/index.ts lines 112-122). -/
def DEFAULT_SAFETY : SafetySettings :=
  { minIntervalMinutes := 30
    maxPostsPerDay := 8
    enableJitter := true
    maxJitterMinutes := 30
    dedupeWindowDays := 7
    quietHoursStart := 23
    quietHoursEnd := 6
    enableQuietHours := true
    timezone := "UTC" }

/-- `PostHistory` entry (src/index.ts lines 86-92). -/
structure PostHistoryEntry where
  id : String
  text : String
  hash : String
  timestamp : Int
  mediaIds : Option (List String)
deriving DecidableEq, Repr

/-- `RateLimitState` (src/index.ts lines 94-98). -/
structure RateLimitState where
  remaining : Int
  limit : Int
  resetAt : Int
deriving DecidableEq, Repr

/-- `StoreSchema` — the persisted `conf` store (src/index.ts lines 100-106). -/
structure StoreSchema where
  postHistory : List PostHistoryEntry
  lastPostAt : Option Int
  dailyPostCount : Int
  dailyPostDate : String
  rateLimit : Option RateLimitState
deriving DecidableEq, Repr

-- ============================================
-- Text normalization, hashing, similarity (lines 533-546)
-- ============================================

/-- JS `\s`-style whitespace (the characters relevant to tweet text). -/
def isWs (c : Char) : Bool :=
  c = ' ' || c = '\t' || c = '\n' || c = '\r'

/-- Collapse every whitespace run to a single space, as
`replace(/\s+/g, ' ')` does.  The `Bool` records whether the previous
character was whitespace (already emitted as one space). -/
def collapseWsAux : List Char → Bool → List Char
  | [], _ => []
  | c :: rest, prevWs =>
    if isWs c then
      if prevWs then collapseWsAux rest true
      else ' ' :: collapseWsAux rest true
    else c :: collapseWsAux rest false

/-- `text.toLowerCase().replace(/\s+/g, ' ').trim()` — the normalization
inside `hashContent` (src/index.ts line 535). -/
def normalizeText (s : String) : String :=
  let collapsed := collapseWsAux (s.data.map Char.toLower) false
  String.mk (((collapsed.dropWhile isWs).reverse.dropWhile isWs).reverse)

/-- `hashContent` (src/index.ts lines 533-537): md5 hex digest of the
normalized text.  The digest is idealised as the normalized text itself
(md5 treated as injective); claims depend only on digest (in)equality. -/
def hashContent (text : String) : String :=
  normalizeText text

/-- Split a whitespace-collapsed character list at each space, keeping
empty segments at the edges exactly like JS `String.split`. -/
def splitOnSpace : List Char → List (List Char)
  | [] => [[]]
  | c :: rest =>
    match splitOnSpace rest with
    | [] => [[]]
    | t :: ts => if c = ' ' then [] :: t :: ts else (c :: t) :: ts

/-- `text.toLowerCase().split(/\s+/)` (src/index.ts lines 541-542): a run
of whitespace separates tokens; a leading/trailing run yields an empty
token, and the empty string yields the single token `""`. -/
def splitTokens (s : String) : List String :=
  (splitOnSpace (collapseWsAux (s.data.map Char.toLower) false)).map
    (fun cs => String.mk cs)

/-- The JS `Set` of tokens, as a `Finset`. -/
def wordSet (s : String) : Finset String :=
  (splitTokens s).toFinset

/-- `intersection.size / union.size` — the Jaccard index of two finite
sets of words (0 when both are empty, by the 0-division convention). -/
def jaccard (A B : Finset String) : ℚ :=
  (((A ∩ B).card : ℚ)) / (((A ∪ B).card : ℚ))

/-- `similarity` (src/index.ts lines 539-546): Jaccard index of the two
token sets. -/
def similarity (a b : String) : ℚ :=
  jaccard (wordSet a) (wordSet b)

-- ============================================
-- Hashtag / mention / shortener pattern rules (lines 314-333)
-- ============================================

/-- JS `\w`: ASCII letters, digits, underscore. -/
def isWordChar (c : Char) : Bool :=
  c.isAlphanum || c = '_'

/-- Count non-overlapping matches of `tag\w+` (e.g. `/#\w+/g`), scanning
left to right.  State: 0 = outside a match, 1 = just consumed `tag`,
2 = consuming the word characters of a match already counted. -/
def countTagsAux (tag : Char) : List Char → Nat → Nat
  | [], _ => 0
  | c :: rest, st =>
    if st = 2 then
      if isWordChar c then countTagsAux tag rest 2
      else if c = tag then countTagsAux tag rest 1
      else countTagsAux tag rest 0
    else if st = 1 then
      if isWordChar c then 1 + countTagsAux tag rest 2
      else if c = tag then countTagsAux tag rest 1
      else countTagsAux tag rest 0
    else
      if c = tag then countTagsAux tag rest 1
      else countTagsAux tag rest 0

/-- `(text.match(/#\w+/g) || []).length` with `tag = '#'`, and the
`@`-mention count with `tag = '@'` (src/index.ts lines 315, 330). -/
def countTags (tag : Char) (text : String) : Nat :=
  countTagsAux tag text.data 0

def listPrefixOf : List Char → List Char → Bool
  | [], _ => true
  | _ :: _, [] => false
  | a :: as, b :: bs => a = b && listPrefixOf as bs

def listContains (pat : List Char) : List Char → Bool
  | [] => listPrefixOf pat []
  | c :: rest => listPrefixOf pat (c :: rest) || listContains pat rest

/-- `/bit\.ly|tinyurl|t\.co|goo\.gl|ow\.ly/i.test(text)`
(src/index.ts line 324): case-insensitive substring test. -/
def hasUrlShortener (text : String) : Bool :=
  let lc := text.data.map Char.toLower
  listContains "bit.ly".data lc || listContains "tinyurl".data lc ||
    listContains "t.co".data lc || listContains "goo.gl".data lc ||
    listContains "ow.ly".data lc

-- ============================================
-- Structured verdict (SafetyCheck, line 79-84), message payloads
-- ============================================

/-- The blocking errors of `checkSafety`, with numeric payloads in place
of the interpolated message strings. -/
inductive SafetyError where
  | rateLimitExceeded (resetAt : Int)
  | dailyLimitReached (maxPerDay : Int)
  | duplicateContent (postedAt : Int)
  | excessiveHashtags
deriving DecidableEq, Repr

/-- The advisory warnings of `checkSafety`. -/
inductive SafetyWarning where
  | approachingDailyLimit (count maxPerDay : Int)
  | quietHours
  | similarContent (pct : Int)
  | tooManyHashtags (n : Nat)
  | urlShortener
  | manyMentions (n : Nat)
  | minIntervalWait (sinceMinutes waitMinutes : Int)
deriving DecidableEq, Repr

/-- The suggestions of `checkSafety`. -/
inductive SafetySuggestion where
  | rephrase
  | useFullUrls
deriving DecidableEq, Repr

/-- `SafetyCheck` (src/index.ts lines 79-84). -/
structure SafetyCheck where
  safe : Bool
  warnings : List SafetyWarning
  errors : List SafetyError
  suggestions : List SafetySuggestion
deriving DecidableEq, Repr

-- ============================================
-- Daily quota rollover (lines 521-531) and history (lines 500-519)
-- ============================================

/-- `checkDailyReset` (src/index.ts lines 521-527): if the stored date
differs from `today` (`getTodayString()`), reset the daily count to 0 and
advance the stored date. -/
def checkDailyReset (st : StoreSchema) (today : String) : StoreSchema :=
  if st.dailyPostDate ≠ today then
    { st with dailyPostCount := 0, dailyPostDate := today }
  else st

/-- `recordPost` (src/index.ts lines 500-519): append a history entry
with the current timestamp, prune entries older than 30 days, set
`lastPostAt`, and increment `dailyPostCount` (with no rollover check of
its own). -/
def recordPost (st : StoreSchema) (now : Int) (text tweetId : String)
    (mediaIds : Option (List String)) : StoreSchema :=
  let history := st.postHistory ++
    [{ id := tweetId, text := text, hash := hashContent text,
       timestamp := now, mediaIds := mediaIds }]
  let cutoff : Int := now - 30 * 24 * 60 * 60 * 1000
  { st with
    postHistory := history.filter (fun h => decide (h.timestamp > cutoff))
    lastPostAt := some now
    dailyPostCount := st.dailyPostCount + 1 }

-- ============================================
-- Quiet hours (lines 548-560)
-- ============================================

/-- `isQuietHours` (src/index.ts lines 548-560) with the current local
hour passed in. -/
def isQuietHours (hour startH endH : Int) : Bool :=
  if startH > endH then
    decide (hour ≥ startH) || decide (hour < endH)
  else
    decide (hour ≥ startH) && decide (hour < endH)

-- ============================================
-- checkSafety (lines 271-351), one definition per rule, in push order
-- ============================================

/-- Dedup window cutoff `Date.now() - dedupeWindowDays*24*60*60*1000`
(src/index.ts line 299). -/
def cutoffFor (s : SafetySettings) (now : Int) : Int :=
  now - s.dedupeWindowDays * 24 * 60 * 60 * 1000

/-- Rate-limit rule (src/index.ts lines 277-280). -/
def rateLimitErrors (st : StoreSchema) (now : Int) : List SafetyError :=
  match st.rateLimit with
  | some rl =>
    if rl.remaining = 0 ∧ rl.resetAt > now then
      [.rateLimitExceeded rl.resetAt]
    else []
  | none => []

/-- Daily-limit rule (src/index.ts lines 285-289), applied to the
post-rollover count: error at `≥ max`, else warning at `≥ max - 2`. -/
def dailyMsgs (s : SafetySettings) (dailyCount : Int) :
    List SafetyError × List SafetyWarning :=
  if dailyCount ≥ s.maxPostsPerDay then
    ([.dailyLimitReached s.maxPostsPerDay], [])
  else if dailyCount ≥ s.maxPostsPerDay - 2 then
    ([], [.approachingDailyLimit dailyCount s.maxPostsPerDay])
  else ([], [])

/-- Quiet-hours warning (src/index.ts lines 292-294). -/
def quietWarnings (s : SafetySettings) (hour : Int) : List SafetyWarning :=
  if s.enableQuietHours = true ∧
      isQuietHours hour s.quietHoursStart s.quietHoursEnd = true then
    [.quietHours]
  else []

/-- `history.find(h => h.hash === hash && h.timestamp > cutoff)`
(src/index.ts line 300). -/
def findDuplicate (s : SafetySettings) (st : StoreSchema) (now : Int)
    (text : String) : Option PostHistoryEntry :=
  st.postHistory.find? fun h =>
    h.hash == hashContent text && decide (h.timestamp > cutoffFor s now)

/-- Duplicate-content rule (src/index.ts lines 300-303). -/
def duplicateErrors (s : SafetySettings) (st : StoreSchema) (now : Int)
    (text : String) : List SafetyError :=
  match findDuplicate s st now text with
  | some d => [.duplicateContent d.timestamp]
  | none => []

/-- `history.find(h => h.timestamp > cutoff && similarity(text, h.text) > 0.8)`
(src/index.ts lines 306-308) — the hash of the found record is NOT part
of the search predicate. -/
def findSimilar (s : SafetySettings) (st : StoreSchema) (now : Int)
    (text : String) : Option PostHistoryEntry :=
  st.postHistory.find? fun h =>
    decide (h.timestamp > cutoffFor s now) &&
      decide (similarity text h.text > 0.8)

/-- Similar-content rule (src/index.ts lines 306-312): only if the single
record returned by the find has a distinct hash is the warning and the
rephrasing suggestion emitted. -/
def similarMsgs (s : SafetySettings) (st : StoreSchema) (now : Int)
    (text : String) : List SafetyWarning × List SafetySuggestion :=
  match findSimilar s st now text with
  | some h =>
    if h.hash ≠ hashContent text then
      ([.similarContent (round (similarity text h.text * 100))], [.rephrase])
    else ([], [])
  | none => ([], [])

/-- Hashtag rules (src/index.ts lines 315-321). -/
def hashtagMsgs (text : String) : List SafetyError × List SafetyWarning :=
  let n := countTags '#' text
  (if n > 5 then [.excessiveHashtags] else [],
   if n > 3 then [.tooManyHashtags n] else [])

/-- URL-shortener rule (src/index.ts lines 324-327). -/
def shortenerMsgs (text : String) :
    List SafetyWarning × List SafetySuggestion :=
  if hasUrlShortener text then ([.urlShortener], [.useFullUrls])
  else ([], [])

/-- Mention rule (src/index.ts lines 330-333). -/
def mentionWarnings (text : String) : List SafetyWarning :=
  let n := countTags '@' text
  if n > 5 then [.manyMentions n] else []

/-- Minimum-interval rule (src/index.ts lines 336-343): a warning (never
an error) when the last post is fresher than `minIntervalMinutes`. -/
def intervalWarnings (s : SafetySettings) (lastPostAt : Option Int)
    (now : Int) : List SafetyWarning :=
  match lastPostAt with
  | some lp =>
    let minutesSince : ℚ := (((now - lp) : Int) : ℚ) / 60000
    if minutesSince < (s.minIntervalMinutes : ℚ) then
      [.minIntervalWait (round minutesSince)
        (Int.ceil ((s.minIntervalMinutes : ℚ) - minutesSince))]
    else []
  | none => []

/-- `checkSafety` (src/index.ts lines 271-351).  All rules run and
accumulate; `safe` iff no errors.  Reading the daily count performs the
lazy rollover (`checkDailyReset`) first.  `hour` is the machine-local
hour and `today` the calendar-day key, both taken at `now`. -/
def checkSafety (s : SafetySettings) (st : StoreSchema) (now hour : Int)
    (today : String) (text : String) : SafetyCheck :=
  let st1 := checkDailyReset st today
  let daily := dailyMsgs s st1.dailyPostCount
  let sim := similarMsgs s st now text
  let tags := hashtagMsgs text
  let urls := shortenerMsgs text
  let errors := rateLimitErrors st now ++ daily.1 ++
    duplicateErrors s st now text ++ tags.1
  let warnings := daily.2 ++ quietWarnings s hour ++ sim.1 ++ tags.2 ++
    urls.1 ++ mentionWarnings text ++ intervalWarnings s st.lastPostAt now
  { safe := errors.isEmpty
    warnings := warnings
    errors := errors
    suggestions := sim.2 ++ urls.2 }

-- ============================================
-- calculateDelay (src/index.ts lines 356-393)
-- ============================================

/-- The `{ delayMs, reason }` result of `calculateDelay`. -/
structure DelayResult where
  delayMs : ℚ
  reason : Option String
deriving DecidableEq, Repr

/-- Step 1 of `calculateDelay` (src/index.ts lines 361-365): rate-limit
cooldown, starting from `delayMs = 0`, `reason` unset. -/
def delayStepRate (st : StoreSchema) (now : Int) : ℚ × Option String :=
  match st.rateLimit with
  | some rl =>
    if rl.remaining = 0 ∧ rl.resetAt > now then
      (max 0 (((rl.resetAt - now) : Int) : ℚ), some "Rate limit cooldown")
    else (0, none)
  | none => (0, none)

/-- Step 2 of `calculateDelay` (src/index.ts lines 368-376): minimum
interval since the last post; the reason is kept if already set. -/
def delayStepInterval (s : SafetySettings) (lastPostAt : Option Int)
    (now : Int) (prev : ℚ × Option String) : ℚ × Option String :=
  match lastPostAt with
  | some lp =>
    if now - lp < s.minIntervalMinutes * 60 * 1000 then
      (max prev.1 (((s.minIntervalMinutes * 60 * 1000 - (now - lp)) : Int) : ℚ),
       prev.2 <|> some "Minimum interval")
    else prev
  | none => prev

/-- Step 3 of `calculateDelay` (src/index.ts lines 379-383): time until
the end of quiet hours (`quietEnd` is `getQuietHoursEnd()`). -/
def delayStepQuiet (s : SafetySettings) (hour quietEnd now : Int)
    (prev : ℚ × Option String) : ℚ × Option String :=
  if s.enableQuietHours = true ∧
      isQuietHours hour s.quietHoursStart s.quietHoursEnd = true then
    (max prev.1 (((quietEnd - now) : Int) : ℚ), prev.2 <|> some "Quiet hours")
  else prev

/-- `calculateDelay(customJitter?)` (src/index.ts lines 356-393): max of
the three components, then — only when jitter is enabled AND the base
delay is nonzero — plus `Math.random() * jitterMinutes * 60 * 1000`,
with `jitterMinutes = customJitter ?? maxJitterMinutes`.  `r` is the
`Math.random()` roll.  `delaySteps` is the accumulated jitter-free
`(delayMs, reason)` pair after the three component steps. -/
def delaySteps (s : SafetySettings) (st : StoreSchema)
    (now hour quietEnd : Int) : ℚ × Option String :=
  delayStepQuiet s hour quietEnd now
    (delayStepInterval s st.lastPostAt now (delayStepRate st now))

def calculateDelay (s : SafetySettings) (st : StoreSchema)
    (now hour quietEnd : Int) (r : ℚ) (customJitter : Option ℚ) :
    DelayResult :=
  let acc := delaySteps s st now hour quietEnd
  let jitterMinutes : ℚ := customJitter.getD s.maxJitterMinutes
  if s.enableJitter = true ∧ 0 < acc.1 then
    { delayMs := acc.1 + r * jitterMinutes * 60 * 1000, reason := acc.2 }
  else
    { delayMs := acc.1, reason := acc.2 }

/-- The rate-limit cooldown component: `resetAt - now` when exhausted,
else 0. -/
def rateComp (st : StoreSchema) (now : Int) : ℚ :=
  match st.rateLimit with
  | some rl =>
    if rl.remaining = 0 ∧ rl.resetAt > now then (((rl.resetAt - now) : Int) : ℚ)
    else 0
  | none => 0

/-- The remaining minimum-interval component: `minInterval - elapsed`
when the last post is fresher than the interval, else 0. -/
def intervalComp (s : SafetySettings) (lastPostAt : Option Int)
    (now : Int) : ℚ :=
  match lastPostAt with
  | some lp =>
    if now - lp < s.minIntervalMinutes * 60 * 1000 then
      (((s.minIntervalMinutes * 60 * 1000 - (now - lp)) : Int) : ℚ)
    else 0
  | none => 0

/-- The quiet-hours component: time until `quietEnd` when quiet hours are
enabled and active, else 0. -/
def quietComp (s : SafetySettings) (hour quietEnd now : Int) : ℚ :=
  if s.enableQuietHours = true ∧
      isQuietHours hour s.quietHoursStart s.quietHoursEnd = true then
    (((quietEnd - now) : Int) : ℚ)
  else 0

/-- Modelled from the spec: "with jitter disabled, `computeDelay` returns
exactly the max of its component delays" — the spec-side jitter-free
delay, written as a plain maximum of the three components, to be compared
with `calculateDelay`. -/
def specBaseDelay (s : SafetySettings) (st : StoreSchema)
    (now hour quietEnd : Int) : ℚ :=
  max (max (max 0 (rateComp st now)) (intervalComp s st.lastPostAt now))
    (quietComp s hour quietEnd now)

/-- `isExhausted(now)` of the RateLimitTracker: the condition
`rateLimit && rateLimit.remaining === 0 && rateLimit.resetAt > Date.now()`
used at src/index.ts lines 278 and 362. -/
def isExhausted (rl : Option RateLimitState) (now : Int) : Bool :=
  match rl with
  | some r => decide (r.remaining = 0) && decide (r.resetAt > now)
  | none => false

-- ============================================
-- post (src/index.ts lines 169-249)
-- ============================================

/-- `PostOptions` (src/index.ts lines 52-65). -/
structure PostOptions where
  text : String
  replyTo : Option String := none
  quoteTweetId : Option String := none
  mediaIds : Option (List String) := none
  force : Bool := false
  jitterMinutes : Option ℚ := none
deriving DecidableEq, Repr

/-- `PostResult` (src/index.ts lines 67-77). -/
structure PostResult where
  success : Bool
  tweetId : Option String := none
  scheduledFor : Option ℚ := none
  delayed : Bool := false
  delayMinutes : Option Int := none
  blocked : Bool := false
  blockReason : Option String := none
  rateLimitRemaining : Option Int := none
  rateLimitReset : Option Int := none
deriving DecidableEq, Repr

/-- What the external Publisher call (`client.v2.tweet`) did: returned a
tweet id, failed with a 429-equivalent (`error.code === 429 ||
error.rateLimitError`, carrying the optional `error.rateLimit.limit` and
`error.rateLimit.reset` seconds), or failed with any other error. -/
inductive PublishOutcome where
  | posted (id : String)
  | rateLimited (limit : Option Int) (reset : Option Int)
  | failure (e : String)
deriving DecidableEq, Repr

/-- How a `post` call ends: a returned `PostResult`, or a re-thrown
error; both carry the persisted store as it stands at that point. -/
inductive PostReturn where
  | ok (res : PostResult) (st : StoreSchema)
  | thrown (e : String) (st : StoreSchema)
deriving DecidableEq, Repr

/-- Abstraction of the interpolated error message strings used when
`post` joins `check.errors` with "; " into `blockReason`. -/
def errMsg : SafetyError → String
  | .rateLimitExceeded _ => "Rate limit exceeded. Resets at"
  | .dailyLimitReached _ => "Daily post limit reached"
  | .duplicateContent _ => "Duplicate content detected"
  | .excessiveHashtags => "Excessive hashtags - high shadowban risk"

/-- `post(options)` (src/index.ts lines 169-249).  Unless `force`:
run `checkSafety` (whose rollover is the only store write on the
non-publishing paths) and return a blocked verdict if unsafe; compute the
delay and return a delayed verdict if positive.  Otherwise invoke the
Publisher: on success record the post; on a 429-equivalent overwrite the
stored rate limit (reported reset seconds, or now + 15 minutes) and
return a blocked verdict; re-throw any other error.  `publishStep` is
the Publisher invocation together with the catch block (src/index.ts
lines 198-248). -/
def publishStep (st1 : StoreSchema) (now : Int) (opts : PostOptions)
    (outcome : PublishOutcome) : PostReturn :=
  match outcome with
  | .posted id =>
    let st2 := recordPost st1 now opts.text id opts.mediaIds
    .ok { success := true, tweetId := some id,
          rateLimitRemaining := st2.rateLimit.map (fun x => x.remaining) }
      st2
  | .rateLimited lim reset =>
    let resetAt : Int :=
      match reset with
      | some rs => rs * 1000
      | none => now + 15 * 60 * 1000
    .ok { success := false, blocked := true
          blockReason := some "Rate limit exceeded"
          rateLimitRemaining := some 0
          rateLimitReset := some resetAt }
      { st1 with rateLimit := some ⟨0, lim.getD 100, resetAt⟩ }
  | .failure e => .thrown e st1

def post (s : SafetySettings) (st : StoreSchema) (now hour : Int)
    (today : String) (quietEnd : Int) (r : ℚ) (opts : PostOptions)
    (outcome : PublishOutcome) : PostReturn :=
  let check := checkSafety s st now hour today opts.text
  let st1 := if opts.force then st else checkDailyReset st today
  if opts.force = false ∧ check.safe = false then
    .ok { success := false, blocked := true,
          blockReason := some (String.intercalate "; " (check.errors.map errMsg)) }
      st1
  else
    let d := calculateDelay s st1 now hour quietEnd r opts.jitterMinutes
    if 0 < d.delayMs ∧ opts.force = false then
      .ok { success := false, delayed := true
            delayMinutes := some (Int.ceil (d.delayMs / 60000))
            scheduledFor := some ((now : ℚ) + d.delayMs)
            blockReason := d.reason }
        st1
    else publishStep st1 now opts outcome

-- ============================================
-- Helper lemmas: find?, token sets, similarity
-- ============================================

theorem find?_congr_pred {α : Type} (p q : α → Bool) (l : List α)
    (h : ∀ a ∈ l, p a = q a) : l.find? p = l.find? q := by
  induction l with
  | nil => rfl
  | cons x xs ih =>
    have hx := h x (by simp)
    simp only [List.find?, hx]
    cases q x with
    | true => rfl
    | false => exact ih (fun a ha => h a (by simp [ha]))

theorem splitOnSpace_ne_nil (l : List Char) : splitOnSpace l ≠ [] := by
  cases l with
  | nil => simp [splitOnSpace]
  | cons c rest =>
    simp only [splitOnSpace]
    cases splitOnSpace rest with
    | nil => simp
    | cons t ts => by_cases hc : c = ' ' <;> simp [hc]

theorem splitTokens_ne_nil (s : String) : splitTokens s ≠ [] := by
  simp [splitTokens, splitOnSpace_ne_nil]

theorem wordSet_nonempty (s : String) : (wordSet s).Nonempty := by
  rw [wordSet]
  exact (List.toFinset_nonempty_iff _).mpr (splitTokens_ne_nil s)

theorem wordSet_union_card_pos (a b : String) :
    0 < ((wordSet a ∪ wordSet b).card : ℚ) := by
  exact_mod_cast Finset.card_pos.mpr
    ((wordSet_nonempty a).mono Finset.subset_union_left)

theorem similarity_comm (a b : String) : similarity a b = similarity b a := by
  rw [similarity, similarity, jaccard, jaccard, Finset.inter_comm,
    Finset.union_comm]

theorem similarity_nonneg (a b : String) : 0 ≤ similarity a b := by
  rw [similarity, jaccard]
  positivity

theorem similarity_le_one (a b : String) : similarity a b ≤ 1 := by
  rw [similarity, jaccard]
  apply div_le_one_of_le₀
  · exact_mod_cast Finset.card_le_card Finset.inter_subset_union
  · positivity

theorem similarity_self (a : String) : similarity a a = 1 := by
  rw [similarity, jaccard, Finset.inter_self, Finset.union_self, div_self]
  exact_mod_cast (Finset.card_pos.mpr (wordSet_nonempty a)).ne'

theorem jaccard_empty_union (A B : Finset String) (h : A ∪ B = ∅) :
    jaccard A B = 0 := by
  rw [jaccard, h]
  simp

/-- The similarity threshold test, rewritten as a comparison of natural
numbers (`0.8 = 4/5` and the union is never empty), so that concrete
instances evaluate in the kernel. -/
theorem similarity_gt_iff (a b : String) :
    (similarity a b > 0.8) ↔
      4 * (wordSet a ∪ wordSet b).card < 5 * (wordSet a ∩ wordSet b).card := by
  rw [similarity, jaccard, gt_iff_lt, show (0.8 : ℚ) = 4 / 5 by norm_num,
    div_lt_div_iff₀ (by norm_num) (wordSet_union_card_pos a b)]
  constructor
  · intro h
    have : (4 * (wordSet a ∪ wordSet b).card : ℚ) <
        (5 * (wordSet a ∩ wordSet b).card : ℚ) := by linarith
    exact_mod_cast this
  · intro h
    have : (4 * (wordSet a ∪ wordSet b).card : ℚ) <
        (5 * (wordSet a ∩ wordSet b).card : ℚ) := by exact_mod_cast h
    push_cast at this
    linarith

/-- `findSimilar` with its threshold test in kernel-evaluable form. -/
theorem findSimilar_eq_nat (s : SafetySettings) (st : StoreSchema)
    (now : Int) (text : String) :
    findSimilar s st now text = st.postHistory.find? fun h =>
      decide (h.timestamp > cutoffFor s now) &&
        decide (4 * (wordSet text ∪ wordSet h.text).card <
          5 * (wordSet text ∩ wordSet h.text).card) := by
  rw [findSimilar]
  apply find?_congr_pred
  intro a _
  rw [decide_eq_decide.mpr (similarity_gt_iff text a.text)]

-- ============================================
-- Helper lemmas: checkSafety decomposition and rule shapes
-- ============================================

theorem checkSafety_errors (s : SafetySettings) (st : StoreSchema)
    (now hour : Int) (today text : String) :
    (checkSafety s st now hour today text).errors =
      rateLimitErrors st now ++
        (dailyMsgs s (checkDailyReset st today).dailyPostCount).1 ++
        duplicateErrors s st now text ++ (hashtagMsgs text).1 := rfl

theorem checkSafety_warnings (s : SafetySettings) (st : StoreSchema)
    (now hour : Int) (today text : String) :
    (checkSafety s st now hour today text).warnings =
      (dailyMsgs s (checkDailyReset st today).dailyPostCount).2 ++
        quietWarnings s hour ++ (similarMsgs s st now text).1 ++
        (hashtagMsgs text).2 ++ (shortenerMsgs text).1 ++
        mentionWarnings text ++ intervalWarnings s st.lastPostAt now := rfl

theorem checkSafety_suggestions (s : SafetySettings) (st : StoreSchema)
    (now hour : Int) (today text : String) :
    (checkSafety s st now hour today text).suggestions =
      (similarMsgs s st now text).2 ++ (shortenerMsgs text).2 := rfl

theorem checkSafety_safe (s : SafetySettings) (st : StoreSchema)
    (now hour : Int) (today text : String) :
    (checkSafety s st now hour today text).safe =
      (checkSafety s st now hour today text).errors.isEmpty := rfl

theorem mem_rateLimitErrors {e : SafetyError} {st : StoreSchema} {now : Int}
    (h : e ∈ rateLimitErrors st now) : ∃ t, e = .rateLimitExceeded t := by
  unfold rateLimitErrors at h
  rcases hrl : st.rateLimit with _ | rl <;> rw [hrl] at h
  · simp at h
  · simp at h
    exact ⟨rl.resetAt, h.2⟩

theorem mem_duplicateErrors {e : SafetyError} {s : SafetySettings}
    {st : StoreSchema} {now : Int} {text : String}
    (h : e ∈ duplicateErrors s st now text) :
    ∃ t, e = .duplicateContent t := by
  unfold duplicateErrors at h
  rcases hd : findDuplicate s st now text with _ | d <;> rw [hd] at h
  · simp at h
  · simp at h; exact ⟨d.timestamp, h⟩

theorem mem_hashtagErrors {e : SafetyError} {text : String}
    (h : e ∈ (hashtagMsgs text).1) : e = .excessiveHashtags := by
  by_cases hc : countTags '#' text > 5 <;> simp [hashtagMsgs, hc] at h
  exact h

theorem mem_dailyErrors {e : SafetyError} {s : SafetySettings} {c : Int}
    (h : e ∈ (dailyMsgs s c).1) :
    e = .dailyLimitReached s.maxPostsPerDay ∧ s.maxPostsPerDay ≤ c := by
  unfold dailyMsgs at h
  split at h
  · next hc => simp at h; exact ⟨h, hc⟩
  · split at h <;> simp at h

theorem mem_dailyWarnings {w : SafetyWarning} {s : SafetySettings} {c : Int}
    (h : w ∈ (dailyMsgs s c).2) :
    w = .approachingDailyLimit c s.maxPostsPerDay := by
  unfold dailyMsgs at h
  split at h
  · simp at h
  · split at h <;> simp at h
    exact h

theorem mem_quietWarnings {w : SafetyWarning} {s : SafetySettings}
    {hour : Int} (h : w ∈ quietWarnings s hour) : w = .quietHours := by
  unfold quietWarnings at h
  split at h <;> simp at h
  exact h

theorem mem_hashtagWarnings {w : SafetyWarning} {text : String}
    (h : w ∈ (hashtagMsgs text).2) :
    w = .tooManyHashtags (countTags '#' text) := by
  by_cases hc : countTags '#' text > 3 <;> simp [hashtagMsgs, hc] at h
  exact h

theorem mem_shortenerWarnings {w : SafetyWarning} {text : String}
    (h : w ∈ (shortenerMsgs text).1) : w = .urlShortener := by
  unfold shortenerMsgs at h
  split at h <;> simp at h
  exact h

theorem mem_shortenerSuggestions {g : SafetySuggestion} {text : String}
    (h : g ∈ (shortenerMsgs text).2) : g = .useFullUrls := by
  unfold shortenerMsgs at h
  split at h <;> simp at h
  exact h

theorem mem_mentionWarnings {w : SafetyWarning} {text : String}
    (h : w ∈ mentionWarnings text) :
    w = .manyMentions (countTags '@' text) := by
  by_cases hc : countTags '@' text > 5 <;> simp [mentionWarnings, hc] at h
  exact h

theorem mem_intervalWarnings {w : SafetyWarning} {s : SafetySettings}
    {lp : Option Int} {now : Int} (h : w ∈ intervalWarnings s lp now) :
    ∃ m m', w = .minIntervalWait m m' := by
  unfold intervalWarnings at h
  rcases lp with _ | t
  · simp at h
  · simp at h
    exact ⟨_, _, h.2⟩

theorem mem_similarWarnings {w : SafetyWarning} {s : SafetySettings}
    {st : StoreSchema} {now : Int} {text : String}
    (h : w ∈ (similarMsgs s st now text).1) :
    ∃ rec, findSimilar s st now text = some rec ∧
      rec.hash ≠ hashContent text ∧
      w = .similarContent (round (similarity text rec.text * 100)) := by
  unfold similarMsgs at h
  rcases hf : findSimilar s st now text with _ | rec <;> rw [hf] at h
  · simp at h
  · by_cases hne : rec.hash = hashContent text
    · simp [hne] at h
    · simp [hne] at h
      exact ⟨rec, rfl, hne, h⟩

theorem similarMsgs_of_distinct {s : SafetySettings} {st : StoreSchema}
    {now : Int} {text : String} {rec : PostHistoryEntry}
    (hf : findSimilar s st now text = some rec)
    (hne : rec.hash ≠ hashContent text) :
    similarMsgs s st now text =
      ([.similarContent (round (similarity text rec.text * 100))],
        [.rephrase]) := by
  unfold similarMsgs
  rw [hf]
  simp [hne]

theorem similarMsgs_of_same {s : SafetySettings} {st : StoreSchema}
    {now : Int} {text : String} {rec : PostHistoryEntry}
    (hf : findSimilar s st now text = some rec)
    (heq : rec.hash = hashContent text) :
    similarMsgs s st now text = ([], []) := by
  unfold similarMsgs
  rw [hf]
  simp [heq]

theorem dailyMsgs_of_ge {s : SafetySettings} {c : Int}
    (h : s.maxPostsPerDay ≤ c) :
    dailyMsgs s c = ([.dailyLimitReached s.maxPostsPerDay], []) := by
  unfold dailyMsgs
  rw [if_pos h]

theorem dailyMsgs_of_mid {s : SafetySettings} {c : Int}
    (h1 : s.maxPostsPerDay - 2 ≤ c) (h2 : c < s.maxPostsPerDay) :
    dailyMsgs s c = ([], [.approachingDailyLimit c s.maxPostsPerDay]) := by
  unfold dailyMsgs
  rw [if_neg (by omega), if_pos h1]

-- ============================================
-- Helper lemmas: delay steps vs the component maxima
-- ============================================

theorem delayStepRate_fst (st : StoreSchema) (now : Int) :
    (delayStepRate st now).1 = max 0 (rateComp st now) := by
  unfold delayStepRate rateComp
  rcases st.rateLimit with _ | rl
  · simp
  · by_cases hc : rl.remaining = 0 ∧ rl.resetAt > now <;> simp [hc]

theorem delayStepRate_fst_nonneg (st : StoreSchema) (now : Int) :
    0 ≤ (delayStepRate st now).1 := by
  rw [delayStepRate_fst]
  exact le_max_left 0 _

theorem delayStepInterval_fst (s : SafetySettings) (lp : Option Int)
    (now : Int) (prev : ℚ × Option String) (h : 0 ≤ prev.1) :
    (delayStepInterval s lp now prev).1 =
      max prev.1 (intervalComp s lp now) := by
  unfold delayStepInterval intervalComp
  rcases lp with _ | t
  · simp [max_eq_left h]
  · by_cases hc : now - t < s.minIntervalMinutes * 60 * 1000 <;>
      simp [hc, max_eq_left h]

theorem delayStepQuiet_fst (s : SafetySettings) (hour quietEnd now : Int)
    (prev : ℚ × Option String) (h : 0 ≤ prev.1) :
    (delayStepQuiet s hour quietEnd now prev).1 =
      max prev.1 (quietComp s hour quietEnd now) := by
  unfold delayStepQuiet quietComp
  by_cases hc : s.enableQuietHours = true ∧
      isQuietHours hour s.quietHoursStart s.quietHoursEnd = true <;>
    simp [hc, max_eq_left h]

theorem delaySteps_fst (s : SafetySettings) (st : StoreSchema)
    (now hour quietEnd : Int) :
    (delaySteps s st now hour quietEnd).1 =
      specBaseDelay s st now hour quietEnd := by
  have h1 := delayStepRate_fst_nonneg st now
  have h2 : 0 ≤ (delayStepInterval s st.lastPostAt now
      (delayStepRate st now)).1 := by
    rw [delayStepInterval_fst s st.lastPostAt now _ h1]
    exact le_trans h1 (le_max_left _ _)
  rw [delaySteps, delayStepQuiet_fst s hour quietEnd now _ h2,
    delayStepInterval_fst s st.lastPostAt now _ h1, delayStepRate_fst,
    specBaseDelay]

theorem specBaseDelay_nonneg (s : SafetySettings) (st : StoreSchema)
    (now hour quietEnd : Int) :
    0 ≤ specBaseDelay s st now hour quietEnd := by
  rw [specBaseDelay]
  exact le_trans (le_max_left 0 _)
    (le_trans (le_max_left _ _) (le_max_left _ _))

theorem delayStepRate_snd_exhausted (st : StoreSchema) (now : Int)
    (rl : RateLimitState) (hrl : st.rateLimit = some rl)
    (h0 : rl.remaining = 0) (hgt : rl.resetAt > now) :
    (delayStepRate st now).2 = some "Rate limit cooldown" := by
  unfold delayStepRate
  rw [hrl]
  simp [h0, hgt]

theorem delayStepInterval_snd_some (s : SafetySettings) (lp : Option Int)
    (now : Int) (prev : ℚ × Option String) (x : String)
    (h : prev.2 = some x) : (delayStepInterval s lp now prev).2 = some x := by
  unfold delayStepInterval
  rcases lp with _ | t
  · exact h
  · by_cases hc : now - t < s.minIntervalMinutes * 60 * 1000 <;>
      simp [hc, h]

theorem delayStepQuiet_snd_some (s : SafetySettings)
    (hour quietEnd now : Int) (prev : ℚ × Option String) (x : String)
    (h : prev.2 = some x) :
    (delayStepQuiet s hour quietEnd now prev).2 = some x := by
  unfold delayStepQuiet
  by_cases hc : s.enableQuietHours = true ∧
      isQuietHours hour s.quietHoursStart s.quietHoursEnd = true <;>
    simp [hc, h]

theorem calculateDelay_reason (s : SafetySettings) (st : StoreSchema)
    (now hour quietEnd : Int) (r : ℚ) (cj : Option ℚ) :
    (calculateDelay s st now hour quietEnd r cj).reason =
      (delaySteps s st now hour quietEnd).2 := by
  unfold calculateDelay
  dsimp only
  split <;> rfl

theorem calculateDelay_ge_base (s : SafetySettings) (st : StoreSchema)
    (now hour quietEnd : Int) (r : ℚ) (cj : Option ℚ) (hr : 0 ≤ r)
    (hjm : 0 ≤ cj.getD s.maxJitterMinutes) :
    specBaseDelay s st now hour quietEnd ≤
      (calculateDelay s st now hour quietEnd r cj).delayMs := by
  rw [← delaySteps_fst s st now hour quietEnd]
  unfold calculateDelay
  dsimp only
  split
  · have : 0 ≤ r * cj.getD s.maxJitterMinutes * 60 * 1000 := by positivity
    dsimp only
    linarith
  · exact le_refl _

-- ============================================
-- Claim theorems
-- ============================================

/-- C8: `similarity` is a well-behaved Jaccard index: it is symmetric,
lies in [0,1], equals 1 on identical texts, and the empty-union case of
the underlying Jaccard index is defined to be 0.  (In the code the union
of two token sets is never empty — JS `split` always yields at least one
token — which the `Nonempty` conjunct records; the 0 convention is
therefore exercised only at the level of the index itself.) -/
theorem similarity_wellBehaved (a b : String) :
    similarity a b = similarity b a ∧
      0 ≤ similarity a b ∧ similarity a b ≤ 1 ∧
      similarity a a = 1 ∧
      (wordSet a ∪ wordSet b).Nonempty ∧
      (∀ A B : Finset String, A ∪ B = ∅ → jaccard A B = 0) :=
  ⟨similarity_comm a b, similarity_nonneg a b, similarity_le_one a b,
    similarity_self a, (wordSet_nonempty a).mono Finset.subset_union_left,
    fun A B h => jaccard_empty_union A B h⟩

/-- Witness for C8: the properties at concrete inputs, and the
empty-union convention discharged at `∅`. -/
theorem similarity_wellBehaved_witness :
    similarity "Hello world" "world hello" =
        similarity "world hello" "Hello world" ∧
      similarity "Hello world" "Hello world" = 1 ∧
      ((∅ : Finset String) ∪ (∅ : Finset String) = ∅ ∧ jaccard ∅ ∅ = 0) :=
  ⟨(similarity_wellBehaved "Hello world" "world hello").1,
    (similarity_wellBehaved "Hello world" "Hello world").2.2.2.1,
    by simp, (similarity_wellBehaved "a" "b").2.2.2.2.2 ∅ ∅ (by simp)⟩

/-- C5: quiet-hours membership: for hours in 0–23, an overnight window
(`start > end`) is active iff `h ≥ start ∨ h < end`, a same-day window
iff `start ≤ h < end`; with start=23, end=6 the hours 0 and 23 are quiet
and hour 12 is not. -/
theorem isQuietHours_spec (startH endH h : Int)
    (hs1 : 0 ≤ startH) (hs2 : startH ≤ 23)
    (he1 : 0 ≤ endH) (he2 : endH ≤ 23) :
    (startH > endH →
        (isQuietHours h startH endH = true ↔ (h ≥ startH ∨ h < endH))) ∧
      (startH ≤ endH →
        (isQuietHours h startH endH = true ↔ (startH ≤ h ∧ h < endH))) ∧
      isQuietHours 0 23 6 = true ∧ isQuietHours 23 23 6 = true ∧
      isQuietHours 12 23 6 = false := by
  refine ⟨?_, ?_, by decide, by decide, by decide⟩
  · intro hgt
    rw [isQuietHours, if_pos hgt]
    simp
  · intro hle
    rw [isQuietHours, if_neg (not_lt.mpr hle)]
    simp

/-- Witness for C5: the overnight window at hour 0 and a same-day window
at hour 3. -/
theorem isQuietHours_spec_witness :
    (isQuietHours 0 23 6 = true ↔ ((0 : Int) ≥ 23 ∨ (0 : Int) < 6)) ∧
      (isQuietHours 3 2 6 = true ↔ ((2 : Int) ≤ 3 ∧ (3 : Int) < 6)) :=
  ⟨(isQuietHours_spec 23 6 0 (by decide) (by decide) (by decide)
      (by decide)).1 (by decide),
    (isQuietHours_spec 2 6 3 (by decide) (by decide) (by decide)
      (by decide)).2.1 (by decide)⟩

/-- C1: if some recorded post inside the dedupe window has the same
normalized form as the candidate (its stored hash being the digest of its
own text), then `checkSafety` reports a duplicate-content error and the
verdict is unsafe. -/
theorem checkSafety_duplicate (s : SafetySettings) (st : StoreSchema)
    (now hour : Int) (today text : String) (rec : PostHistoryEntry)
    (hmem : rec ∈ st.postHistory)
    (hwf : rec.hash = hashContent rec.text)
    (hnorm : normalizeText rec.text = normalizeText text)
    (hwin : rec.timestamp > cutoffFor s now) :
    (∃ ts, SafetyError.duplicateContent ts ∈
        (checkSafety s st now hour today text).errors) ∧
      (checkSafety s st now hour today text).safe = false := by
  have hfind : (findDuplicate s st now text).isSome := by
    rw [findDuplicate]
    apply List.find?_isSome.mpr
    refine ⟨rec, hmem, ?_⟩
    simp only [hashContent, hwf, hnorm, hwin]
    simp [hwin]
  obtain ⟨d, hd⟩ := Option.isSome_iff_exists.mp hfind
  have hdup : duplicateErrors s st now text =
      [.duplicateContent d.timestamp] := by
    rw [duplicateErrors, hd]
  have hm : SafetyError.duplicateContent d.timestamp ∈
      (checkSafety s st now hour today text).errors := by
    rw [checkSafety_errors, hdup]
    simp
  refine ⟨⟨d.timestamp, hm⟩, ?_⟩
  rw [checkSafety_safe]
  simp only [List.isEmpty_eq_false]
  exact List.ne_nil_of_mem hm

/-- Witness for C1: "Hello" was recorded 60 s ago; evaluating "hello "
(case difference, trailing space) is reported as a duplicate. -/
theorem checkSafety_duplicate_witness :
    normalizeText "Hello" = normalizeText "hello " ∧
      (∃ ts, SafetyError.duplicateContent ts ∈
          (checkSafety DEFAULT_SAFETY
            ⟨[⟨"1", "Hello", hashContent "Hello", 940000, none⟩], none, 0,
              "2026-10-11", none⟩ 1000000 12 "2026-10-11" "hello ").errors) ∧
      (checkSafety DEFAULT_SAFETY
          ⟨[⟨"1", "Hello", hashContent "Hello", 940000, none⟩], none, 0,
            "2026-10-11", none⟩ 1000000 12 "2026-10-11" "hello ").safe
        = false :=
  ⟨by decide,
    (checkSafety_duplicate DEFAULT_SAFETY
        ⟨[⟨"1", "Hello", hashContent "Hello", 940000, none⟩], none, 0,
          "2026-10-11", none⟩ 1000000 12 "2026-10-11" "hello "
        ⟨"1", "Hello", hashContent "Hello", 940000, none⟩
        (by decide) (by decide) (by decide) (by decide)).1,
    (checkSafety_duplicate DEFAULT_SAFETY
        ⟨[⟨"1", "Hello", hashContent "Hello", 940000, none⟩], none, 0,
          "2026-10-11", none⟩ 1000000 12 "2026-10-11" "hello "
        ⟨"1", "Hello", hashContent "Hello", 940000, none⟩
        (by decide) (by decide) (by decide) (by decide)).2⟩

/-- C3: quota boundary after the lazy rollover: a count at or above
`maxPostsPerDay` yields the daily-limit error; a count in
[max−2, max) yields only the approaching-limit warning and no
daily-limit error of any payload. -/
theorem checkSafety_quota_boundary (s : SafetySettings) (st : StoreSchema)
    (now hour : Int) (today text : String) :
    (s.maxPostsPerDay ≤ (checkDailyReset st today).dailyPostCount →
        SafetyError.dailyLimitReached s.maxPostsPerDay ∈
          (checkSafety s st now hour today text).errors) ∧
      (s.maxPostsPerDay - 2 ≤ (checkDailyReset st today).dailyPostCount →
        (checkDailyReset st today).dailyPostCount < s.maxPostsPerDay →
        SafetyWarning.approachingDailyLimit
            (checkDailyReset st today).dailyPostCount s.maxPostsPerDay ∈
          (checkSafety s st now hour today text).warnings ∧
        (∀ m, SafetyError.dailyLimitReached m ∉
          (checkSafety s st now hour today text).errors)) := by
  constructor
  · intro hge
    rw [checkSafety_errors, dailyMsgs_of_ge hge]
    simp
  · intro h1 h2
    constructor
    · rw [checkSafety_warnings, dailyMsgs_of_mid h1 h2]
      simp
    · intro m hm
      rw [checkSafety_errors, dailyMsgs_of_mid h1 h2] at hm
      simp only [List.mem_append] at hm
      rcases hm with ((hm | hm) | hm) | hm
      · obtain ⟨t, ht⟩ := mem_rateLimitErrors hm
        simp at ht
      · simp at hm
      · obtain ⟨t, ht⟩ := mem_duplicateErrors hm
        simp at ht
      · have ht := mem_hashtagErrors hm
        simp at ht

/-- Witness for C3: with max = 8, a count of 8 errors; a count of 7
warns (7 ≥ 8−2 = 6) with no daily-limit error. -/
theorem checkSafety_quota_boundary_witness :
    SafetyError.dailyLimitReached 8 ∈
        (checkSafety DEFAULT_SAFETY ⟨[], none, 8, "2026-10-11", none⟩
          1000000 12 "2026-10-11" "hi").errors ∧
      SafetyWarning.approachingDailyLimit 7 8 ∈
        (checkSafety DEFAULT_SAFETY ⟨[], none, 7, "2026-10-11", none⟩
          1000000 12 "2026-10-11" "hi").warnings ∧
      (∀ m, SafetyError.dailyLimitReached m ∉
        (checkSafety DEFAULT_SAFETY ⟨[], none, 7, "2026-10-11", none⟩
          1000000 12 "2026-10-11" "hi").errors) :=
  ⟨(checkSafety_quota_boundary DEFAULT_SAFETY
      ⟨[], none, 8, "2026-10-11", none⟩ 1000000 12 "2026-10-11" "hi").1
      (by decide),
    ((checkSafety_quota_boundary DEFAULT_SAFETY
      ⟨[], none, 7, "2026-10-11", none⟩ 1000000 12 "2026-10-11" "hi").2
      (by decide) (by decide)).1,
    ((checkSafety_quota_boundary DEFAULT_SAFETY
      ⟨[], none, 7, "2026-10-11", none⟩ 1000000 12 "2026-10-11" "hi").2
      (by decide) (by decide)).2⟩

theorem similarContent_mem_warnings {s : SafetySettings} {st : StoreSchema}
    {now hour : Int} {today text : String} {p : Int}
    (hp : SafetyWarning.similarContent p ∈
      (checkSafety s st now hour today text).warnings) :
    ∃ rec, findSimilar s st now text = some rec ∧
      rec.hash ≠ hashContent text ∧
      p = round (similarity text rec.text * 100) := by
  rw [checkSafety_warnings] at hp
  simp only [List.mem_append] at hp
  rcases hp with ((((((hp | hp) | hp) | hp) | hp) | hp) | hp)
  · have := mem_dailyWarnings hp
    simp at this
  · have := mem_quietWarnings hp
    simp at this
  · obtain ⟨rec, hf, hne, hw⟩ := mem_similarWarnings hp
    exact ⟨rec, hf, hne, by injection hw⟩
  · have := mem_hashtagWarnings hp
    simp at this
  · have := mem_shortenerWarnings hp
    simp at this
  · have := mem_mentionWarnings hp
    simp at this
  · obtain ⟨m, m', hmm⟩ := mem_intervalWarnings hp
    simp at hmm

theorem rephrase_mem_suggestions {s : SafetySettings} {st : StoreSchema}
    {now hour : Int} {today text : String}
    (hp : SafetySuggestion.rephrase ∈
      (checkSafety s st now hour today text).suggestions) :
    ∃ rec, findSimilar s st now text = some rec ∧
      rec.hash ≠ hashContent text := by
  rw [checkSafety_suggestions] at hp
  simp only [List.mem_append] at hp
  rcases hp with hp | hp
  · unfold similarMsgs at hp
    rcases hf : findSimilar s st now text with _ | rec <;> rw [hf] at hp
    · simp at hp
    · by_cases hne : rec.hash = hashContent text
      · simp [hne] at hp
      · exact ⟨rec, rfl, hne⟩
  · have := mem_shortenerSuggestions hp
    simp at this

/-- C2 (amended): the near-duplicate warning and the rephrasing
suggestion are controlled by the single record that the similarity
search returns — the FIRST history record within the window whose
similarity exceeds 0.8, found without regard to its hash: they are
emitted iff that record's hash differs from the candidate's.  Same-hash
(exact-duplicate) records are not skipped: when the first
threshold-exceeding record is the exact duplicate, no warning is
emitted even if a later distinct-hash record also exceeds the
threshold. -/
theorem checkSafety_similar_first (s : SafetySettings) (st : StoreSchema)
    (now hour : Int) (today text : String) (rec : PostHistoryEntry)
    (hf : findSimilar s st now text = some rec) :
    (rec.hash ≠ hashContent text →
        SafetyWarning.similarContent
            (round (similarity text rec.text * 100)) ∈
          (checkSafety s st now hour today text).warnings ∧
        SafetySuggestion.rephrase ∈
          (checkSafety s st now hour today text).suggestions) ∧
      (rec.hash = hashContent text →
        (∀ p, SafetyWarning.similarContent p ∉
          (checkSafety s st now hour today text).warnings) ∧
        SafetySuggestion.rephrase ∉
          (checkSafety s st now hour today text).suggestions) := by
  constructor
  · intro hne
    constructor
    · rw [checkSafety_warnings, similarMsgs_of_distinct hf hne]
      simp
    · rw [checkSafety_suggestions, similarMsgs_of_distinct hf hne]
      simp
  · intro heq
    constructor
    · intro p hp
      obtain ⟨rec', hf', hne', _⟩ := similarContent_mem_warnings hp
      rw [hf] at hf'
      injection hf' with h'
      rw [← h'] at hne'
      exact hne' heq
    · intro hp
      obtain ⟨rec', hf', hne'⟩ := rephrase_mem_suggestions hp
      rw [hf] at hf'
      injection hf' with h'
      rw [← h'] at hne'
      exact hne' heq

/-- C2 counterexample: history holds the exact duplicate of the
candidate FIRST (similarity 1, same hash) and a distinct-hash record
with similarity 10/11 > 0.8 SECOND, both within the window; the claim
asserts a near-duplicate warning and suggestion, but `checkSafety`
emits no warning and no suggestion at all (the find stops at the
same-hash record). -/
theorem checkSafety_similar_counterexample :
    (similarity "a b c d e f g h i j" "a b c d e f g h i j k" > 0.8 ∧
      (⟨"2", "a b c d e f g h i j k",
          hashContent "a b c d e f g h i j k", 998000, none⟩ :
            PostHistoryEntry) ∈
        (⟨[⟨"1", "a b c d e f g h i j",
              hashContent "a b c d e f g h i j", 999000, none⟩,
            ⟨"2", "a b c d e f g h i j k",
              hashContent "a b c d e f g h i j k", 998000, none⟩],
          none, 0, "2026-10-11", none⟩ : StoreSchema).postHistory ∧
      (998000 : Int) > cutoffFor DEFAULT_SAFETY 1000000 ∧
      hashContent "a b c d e f g h i j k" ≠
        hashContent "a b c d e f g h i j") ∧
    (checkSafety DEFAULT_SAFETY
        ⟨[⟨"1", "a b c d e f g h i j",
            hashContent "a b c d e f g h i j", 999000, none⟩,
          ⟨"2", "a b c d e f g h i j k",
            hashContent "a b c d e f g h i j k", 998000, none⟩],
          none, 0, "2026-10-11", none⟩
        1000000 12 "2026-10-11" "a b c d e f g h i j").warnings = [] ∧
    (checkSafety DEFAULT_SAFETY
        ⟨[⟨"1", "a b c d e f g h i j",
            hashContent "a b c d e f g h i j", 999000, none⟩,
          ⟨"2", "a b c d e f g h i j k",
            hashContent "a b c d e f g h i j k", 998000, none⟩],
          none, 0, "2026-10-11", none⟩
        1000000 12 "2026-10-11" "a b c d e f g h i j").suggestions = [] := by
  have hf : findSimilar DEFAULT_SAFETY
      ⟨[⟨"1", "a b c d e f g h i j",
          hashContent "a b c d e f g h i j", 999000, none⟩,
        ⟨"2", "a b c d e f g h i j k",
          hashContent "a b c d e f g h i j k", 998000, none⟩],
        none, 0, "2026-10-11", none⟩ 1000000 "a b c d e f g h i j" =
      some ⟨"1", "a b c d e f g h i j",
        hashContent "a b c d e f g h i j", 999000, none⟩ := by
    rw [findSimilar_eq_nat]
    decide
  have hsim0 := similarMsgs_of_same hf (by decide)
  refine ⟨⟨(similarity_gt_iff _ _).mpr (by decide), by decide, by decide,
    by decide⟩, ?_, ?_⟩
  · rw [checkSafety_warnings, hsim0]
    decide
  · rw [checkSafety_suggestions, hsim0]
    decide

/-- Witness for C2 (amended): with only the distinct-hash similar record
in history, the warning and the suggestion are emitted. -/
theorem checkSafety_similar_first_witness :
    findSimilar DEFAULT_SAFETY
        ⟨[⟨"2", "a b c d e f g h i j k",
            hashContent "a b c d e f g h i j k", 998000, none⟩],
          none, 0, "2026-10-11", none⟩ 1000000 "a b c d e f g h i j" =
      some ⟨"2", "a b c d e f g h i j k",
        hashContent "a b c d e f g h i j k", 998000, none⟩ ∧
    SafetyWarning.similarContent
        (round (similarity "a b c d e f g h i j"
          "a b c d e f g h i j k" * 100)) ∈
      (checkSafety DEFAULT_SAFETY
        ⟨[⟨"2", "a b c d e f g h i j k",
            hashContent "a b c d e f g h i j k", 998000, none⟩],
          none, 0, "2026-10-11", none⟩
        1000000 12 "2026-10-11" "a b c d e f g h i j").warnings ∧
    SafetySuggestion.rephrase ∈
      (checkSafety DEFAULT_SAFETY
        ⟨[⟨"2", "a b c d e f g h i j k",
            hashContent "a b c d e f g h i j k", 998000, none⟩],
          none, 0, "2026-10-11", none⟩
        1000000 12 "2026-10-11" "a b c d e f g h i j").suggestions := by
  have hf : findSimilar DEFAULT_SAFETY
      ⟨[⟨"2", "a b c d e f g h i j k",
          hashContent "a b c d e f g h i j k", 998000, none⟩],
        none, 0, "2026-10-11", none⟩ 1000000 "a b c d e f g h i j" =
      some ⟨"2", "a b c d e f g h i j k",
        hashContent "a b c d e f g h i j k", 998000, none⟩ := by
    rw [findSimilar_eq_nat]
    decide
  exact ⟨hf,
    ((checkSafety_similar_first DEFAULT_SAFETY _ 1000000 12 "2026-10-11"
      "a b c d e f g h i j" _ hf).1 (by decide)).1,
    ((checkSafety_similar_first DEFAULT_SAFETY _ 1000000 12 "2026-10-11"
      "a b c d e f g h i j" _ hf).1 (by decide)).2⟩

/-- C4: jitter bounds of `calculateDelay`: with jitter disabled the
delay is exactly the maximum of the three components; with jitter
enabled and a positive base, for any roll `r ∈ [0,1)` the delay lies in
`[base, base + jitterMinutes*60000)` where `jitterMinutes` is the
override if supplied else `maxJitterMinutes`; and a zero base delay
yields exactly zero (jitter is never added on a clear post). -/
theorem calculateDelay_jitter_bounds (s : SafetySettings)
    (st : StoreSchema) (now hour quietEnd : Int) (r : ℚ) (cj : Option ℚ) :
    (s.enableJitter = false →
        (calculateDelay s st now hour quietEnd r cj).delayMs =
          specBaseDelay s st now hour quietEnd) ∧
      (s.enableJitter = true →
        0 < specBaseDelay s st now hour quietEnd →
        0 ≤ r → r < 1 → 0 < cj.getD s.maxJitterMinutes →
        specBaseDelay s st now hour quietEnd ≤
            (calculateDelay s st now hour quietEnd r cj).delayMs ∧
          (calculateDelay s st now hour quietEnd r cj).delayMs <
            specBaseDelay s st now hour quietEnd +
              cj.getD s.maxJitterMinutes * 60 * 1000) ∧
      (specBaseDelay s st now hour quietEnd = 0 →
        (calculateDelay s st now hour quietEnd r cj).delayMs = 0) := by
  have hacc := delaySteps_fst s st now hour quietEnd
  refine ⟨?_, ?_, ?_⟩
  · intro hj
    unfold calculateDelay
    dsimp only
    rw [if_neg (by simp [hj])]
    exact hacc
  · intro hj hpos hr hr1 hjm
    refine ⟨calculateDelay_ge_base s st now hour quietEnd r cj hr
      (le_of_lt hjm), ?_⟩
    unfold calculateDelay
    dsimp only
    rw [if_pos ⟨hj, by rw [hacc]; exact hpos⟩]
    dsimp only
    rw [hacc]
    have h60 : (0 : ℚ) < cj.getD s.maxJitterMinutes * 60 * 1000 := by
      positivity
    have hlt : r * (cj.getD s.maxJitterMinutes * 60 * 1000) <
        1 * (cj.getD s.maxJitterMinutes * 60 * 1000) :=
      mul_lt_mul_of_pos_right hr1 h60
    nlinarith
  · intro h0
    unfold calculateDelay
    dsimp only
    rw [if_neg (by rw [hacc, h0]; simp)]
    exact hacc.trans h0

/-- Witness for C4: jitter disabled gives exactly the base; jitter
enabled with a 10-minute rate-limit base and roll 0 stays within the
bounds; an all-clear store gives delay exactly 0. -/
theorem calculateDelay_jitter_bounds_witness :
    ((calculateDelay { DEFAULT_SAFETY with enableJitter := false }
        ⟨[], none, 0, "2026-10-11", some ⟨0, 100, 1600000⟩⟩
        1000000 12 0 0 none).delayMs =
      specBaseDelay { DEFAULT_SAFETY with enableJitter := false }
        ⟨[], none, 0, "2026-10-11", some ⟨0, 100, 1600000⟩⟩ 1000000 12 0) ∧
    (specBaseDelay DEFAULT_SAFETY
        ⟨[], none, 0, "2026-10-11", some ⟨0, 100, 1600000⟩⟩ 1000000 12 0 ≤
      (calculateDelay DEFAULT_SAFETY
        ⟨[], none, 0, "2026-10-11", some ⟨0, 100, 1600000⟩⟩
        1000000 12 0 0 none).delayMs ∧
      (calculateDelay DEFAULT_SAFETY
        ⟨[], none, 0, "2026-10-11", some ⟨0, 100, 1600000⟩⟩
        1000000 12 0 0 none).delayMs <
        specBaseDelay DEFAULT_SAFETY
          ⟨[], none, 0, "2026-10-11", some ⟨0, 100, 1600000⟩⟩ 1000000 12 0 +
          (none : Option ℚ).getD DEFAULT_SAFETY.maxJitterMinutes *
            60 * 1000) ∧
    (calculateDelay DEFAULT_SAFETY ⟨[], none, 0, "2026-10-11", none⟩
        1000000 12 0 0 none).delayMs = 0 :=
  ⟨(calculateDelay_jitter_bounds { DEFAULT_SAFETY with enableJitter := false }
      ⟨[], none, 0, "2026-10-11", some ⟨0, 100, 1600000⟩⟩
      1000000 12 0 0 none).1 rfl,
    (calculateDelay_jitter_bounds DEFAULT_SAFETY
      ⟨[], none, 0, "2026-10-11", some ⟨0, 100, 1600000⟩⟩
      1000000 12 0 0 none).2.1 rfl (by decide) (by decide) (by decide)
      (by decide),
    (calculateDelay_jitter_bounds DEFAULT_SAFETY
      ⟨[], none, 0, "2026-10-11", none⟩ 1000000 12 0 0 none).2.2
      (by decide)⟩

/-- C6: the rate-limit tracker is exhausted iff the stored window has
`remaining = 0` and `resetAt` strictly in the future; whenever it is
exhausted, `calculateDelay` returns a delay of at least `resetAt − now`
with reason "Rate limit cooldown", for every configuration (the other
components only raise the delay through the maximum, jitter is
non-negative, and the rate-limit reason, set first, is never
overwritten). -/
theorem rateLimit_exhaustion_cooldown (s : SafetySettings)
    (st : StoreSchema) (now hour quietEnd : Int) (r : ℚ) (cj : Option ℚ)
    (rl : RateLimitState) (hrl : st.rateLimit = some rl) :
    (isExhausted st.rateLimit now = true ↔
        (rl.remaining = 0 ∧ rl.resetAt > now)) ∧
      (rl.remaining = 0 → rl.resetAt > now → 0 ≤ r →
        0 ≤ cj.getD s.maxJitterMinutes →
        (((rl.resetAt - now : Int) : ℚ) ≤
            (calculateDelay s st now hour quietEnd r cj).delayMs ∧
          (calculateDelay s st now hour quietEnd r cj).reason =
            some "Rate limit cooldown")) := by
  constructor
  · unfold isExhausted
    rw [hrl]
    simp
  · intro h0 hgt hr hjm
    constructor
    · have hrc : rateComp st now = ((rl.resetAt - now : Int) : ℚ) := by
        unfold rateComp
        rw [hrl]
        simp [h0, hgt]
      have hbase : ((rl.resetAt - now : Int) : ℚ) ≤
          specBaseDelay s st now hour quietEnd := by
        rw [specBaseDelay, hrc]
        exact le_trans (le_max_right 0 _)
          (le_trans (le_max_left _ _) (le_max_left _ _))
      exact hbase.trans
        (calculateDelay_ge_base s st now hour quietEnd r cj hr hjm)
    · rw [calculateDelay_reason, delaySteps]
      apply delayStepQuiet_snd_some
      apply delayStepInterval_snd_some
      exact delayStepRate_snd_exhausted st now rl hrl h0 hgt

/-- Witness for C6: a window `{remaining 0, resetAt now+10m}` is
exhausted and forces a ≥ 10-minute delay with the cooldown reason. -/
theorem rateLimit_exhaustion_cooldown_witness :
    (isExhausted (some ⟨0, 100, 1600000⟩ : Option RateLimitState)
        1000000 = true ↔
      ((0 : Int) = 0 ∧ (1600000 : Int) > 1000000)) ∧
      (((1600000 - 1000000 : Int) : ℚ) ≤
          (calculateDelay DEFAULT_SAFETY
            ⟨[], none, 0, "2026-10-11", some ⟨0, 100, 1600000⟩⟩
            1000000 12 0 0 none).delayMs ∧
        (calculateDelay DEFAULT_SAFETY
            ⟨[], none, 0, "2026-10-11", some ⟨0, 100, 1600000⟩⟩
            1000000 12 0 0 none).reason = some "Rate limit cooldown") :=
  ⟨(rateLimit_exhaustion_cooldown DEFAULT_SAFETY
      ⟨[], none, 0, "2026-10-11", some ⟨0, 100, 1600000⟩⟩
      1000000 12 0 0 none ⟨0, 100, 1600000⟩ rfl).1,
    (rateLimit_exhaustion_cooldown DEFAULT_SAFETY
      ⟨[], none, 0, "2026-10-11", some ⟨0, 100, 1600000⟩⟩
      1000000 12 0 0 none ⟨0, 100, 1600000⟩ rfl).2
      (by decide) (by decide) (by decide) (by decide)⟩

theorem checkDailyReset_preserves (st : StoreSchema) (today : String) :
    (checkDailyReset st today).postHistory = st.postHistory ∧
      (checkDailyReset st today).lastPostAt = st.lastPostAt ∧
      (checkDailyReset st today).rateLimit = st.rateLimit ∧
      ((checkDailyReset st today).dailyPostCount = st.dailyPostCount ∨
        (st.dailyPostDate ≠ today ∧
          (checkDailyReset st today).dailyPostCount = 0)) := by
  unfold checkDailyReset
  by_cases h : st.dailyPostDate ≠ today
  · rw [if_pos h]
    exact ⟨rfl, rfl, rfl, Or.inr ⟨h, rfl⟩⟩
  · rw [if_neg h]
    exact ⟨rfl, rfl, rfl, Or.inl rfl⟩

theorem post_publishes (s : SafetySettings) (st : StoreSchema)
    (now hour : Int) (today : String) (quietEnd : Int) (r : ℚ)
    (opts : PostOptions) (outcome : PublishOutcome)
    (hpub : opts.force = true ∨
      ((checkSafety s st now hour today opts.text).safe = true ∧
        (calculateDelay s (if opts.force then st else checkDailyReset st today)
          now hour quietEnd r opts.jitterMinutes).delayMs ≤ 0)) :
    post s st now hour today quietEnd r opts outcome =
      publishStep (if opts.force then st else checkDailyReset st today)
        now opts outcome := by
  unfold post
  dsimp only
  rcases hpub with hforce | ⟨hsafe, hdelay⟩
  · rw [if_neg (by simp [hforce]), if_neg (by simp [hforce])]
  · rw [if_neg (by simp [hsafe]),
      if_neg (fun hcon => absurd hcon.1 (not_lt.mpr hdelay))]

/-- C7: error handling at the Publisher boundary, on any path that
reaches the publish call (`force`, or safe with a non-positive delay):
a 429-equivalent failure is not re-thrown — the stored rate limit is
overwritten with remaining 0 and the reported (or defaulted now+15min)
reset instant, and a blocked verdict is returned; any other Publisher
failure is re-thrown unchanged, with no verdict and no store change
(history, lastPostAt and rateLimit are exactly as before the call; only
the lazy rollover performed while checking may have touched the daily
fields). -/
theorem post_publisher_errors (s : SafetySettings) (st : StoreSchema)
    (now hour : Int) (today : String) (quietEnd : Int) (r : ℚ)
    (opts : PostOptions) (e : String) (lim reset : Option Int)
    (hpub : opts.force = true ∨
      ((checkSafety s st now hour today opts.text).safe = true ∧
        (calculateDelay s (if opts.force then st else checkDailyReset st today)
          now hour quietEnd r opts.jitterMinutes).delayMs ≤ 0)) :
    (post s st now hour today quietEnd r opts (.failure e) =
        .thrown e (if opts.force then st else checkDailyReset st today) ∧
      (if opts.force then st else checkDailyReset st today).postHistory =
        st.postHistory ∧
      (if opts.force then st else checkDailyReset st today).lastPostAt =
        st.lastPostAt ∧
      (if opts.force then st else checkDailyReset st today).rateLimit =
        st.rateLimit) ∧
      (∃ res, post s st now hour today quietEnd r opts
          (.rateLimited lim reset) =
        .ok res { (if opts.force then st else checkDailyReset st today) with
            rateLimit := some ⟨0, lim.getD 100,
              match reset with
              | some rs => rs * 1000
              | none => now + 15 * 60 * 1000⟩ } ∧
        res.success = false ∧ res.blocked = true ∧ res.delayed = false ∧
        res.blockReason = some "Rate limit exceeded") := by
  have hpres := checkDailyReset_preserves st today
  constructor
  · refine ⟨?_, ?_, ?_, ?_⟩
    · rw [post_publishes s st now hour today quietEnd r opts (.failure e) hpub]
      rfl
    · split
      · rfl
      · exact hpres.1
    · split
      · rfl
      · exact hpres.2.1
    · split
      · rfl
      · exact hpres.2.2.1
  · rw [post_publishes s st now hour today quietEnd r opts
      (.rateLimited lim reset) hpub]
    exact ⟨_, rfl, rfl, rfl, rfl, rfl⟩

/-- Witness for C7: a forced post whose Publisher throws "boom" is
re-thrown with the store untouched; one that reports a 429 with no
reset header gets the defaulted reset `now + 15min` and a blocked
verdict. -/
theorem post_publisher_errors_witness :
    (post DEFAULT_SAFETY ⟨[], none, 0, "2026-10-10", none⟩ 1000000 12
        "2026-10-11" 0 0 { text := "hi", force := true } (.failure "boom") =
      .thrown "boom" ⟨[], none, 0, "2026-10-10", none⟩) ∧
    (∃ res, post DEFAULT_SAFETY ⟨[], none, 0, "2026-10-10", none⟩ 1000000 12
        "2026-10-11" 0 0 { text := "hi", force := true }
        (.rateLimited none none) =
      .ok res ⟨[], none, 0, "2026-10-10", some ⟨0, 100, 1900000⟩⟩ ∧
      res.success = false ∧ res.blocked = true ∧ res.delayed = false ∧
      res.blockReason = some "Rate limit exceeded") := by
  have h := post_publisher_errors DEFAULT_SAFETY
    ⟨[], none, 0, "2026-10-10", none⟩ 1000000 12 "2026-10-11" 0 0
    { text := "hi", force := true } "boom" none none (Or.inl rfl)
  exact ⟨h.1.1, h.2⟩

/-- C9 (code evaluated at the failing input): `recordPost` increments
the daily counter with no rollover check of its own, so on the force
path (which skips `checkSafety` and its rollover) a store carrying
yesterday's date "2026-10-10" and count 5, force-posted on
"2026-10-11", ends with count 6 and the stale date — not the count 1
that a rollover-then-increment would produce. -/
theorem recordPost_force_no_rollover :
    post DEFAULT_SAFETY ⟨[], none, 5, "2026-10-10", none⟩ 1000000 12
        "2026-10-11" 0 0 { text := "hello", force := true }
        (.posted "tw1") =
      .ok { success := true, tweetId := some "tw1" }
        ⟨[⟨"tw1", "hello", "hello", 1000000, none⟩], some 1000000, 6,
          "2026-10-10", none⟩ := by
  decide

/-- C10: on the non-force path, a blocked verdict (failed safety) or a
delayed verdict (positive computed delay) returns the store with no
record appended, `lastPostAt` and `rateLimit` untouched, and the daily
count unchanged except for the lazy rollover performed while reading
it. -/
theorem post_nonpublish_atomic (s : SafetySettings) (st : StoreSchema)
    (now hour : Int) (today : String) (quietEnd : Int) (r : ℚ)
    (opts : PostOptions) (outcome : PublishOutcome)
    (hforce : opts.force = false) :
    ((checkDailyReset st today).postHistory = st.postHistory ∧
      (checkDailyReset st today).lastPostAt = st.lastPostAt ∧
      (checkDailyReset st today).rateLimit = st.rateLimit ∧
      ((checkDailyReset st today).dailyPostCount = st.dailyPostCount ∨
        (st.dailyPostDate ≠ today ∧
          (checkDailyReset st today).dailyPostCount = 0))) ∧
    ((checkSafety s st now hour today opts.text).safe = false →
      ∃ res, post s st now hour today quietEnd r opts outcome =
          .ok res (checkDailyReset st today) ∧
        res.success = false ∧ res.blocked = true) ∧
    ((checkSafety s st now hour today opts.text).safe = true →
      0 < (calculateDelay s (checkDailyReset st today) now hour quietEnd r
        opts.jitterMinutes).delayMs →
      ∃ res, post s st now hour today quietEnd r opts outcome =
          .ok res (checkDailyReset st today) ∧
        res.success = false ∧ res.delayed = true) := by
  refine ⟨checkDailyReset_preserves st today, ?_, ?_⟩
  · intro hunsafe
    unfold post
    dsimp only
    rw [if_pos ⟨hforce, hunsafe⟩, hforce]
    exact ⟨_, rfl, rfl, rfl⟩
  · intro hsafe hdelay
    unfold post
    dsimp only
    rw [if_neg (by simp [hsafe]), hforce]
    rw [if_pos ⟨hdelay, rfl⟩]
    exact ⟨_, rfl, rfl, rfl⟩

/-- Witness for C10: a rate-limit-exhausted store blocks the post and
comes back otherwise unchanged. -/
theorem post_nonpublish_atomic_witness :
    (checkSafety DEFAULT_SAFETY
        ⟨[], none, 0, "2026-10-11", some ⟨0, 100, 1600000⟩⟩
        1000000 12 "2026-10-11" "hi").safe = false ∧
    (∃ res, post DEFAULT_SAFETY
        ⟨[], none, 0, "2026-10-11", some ⟨0, 100, 1600000⟩⟩
        1000000 12 "2026-10-11" 0 0 { text := "hi" } (.posted "t") =
      .ok res (checkDailyReset
        ⟨[], none, 0, "2026-10-11", some ⟨0, 100, 1600000⟩⟩ "2026-10-11") ∧
      res.success = false ∧ res.blocked = true) :=
  ⟨by decide,
    (post_nonpublish_atomic DEFAULT_SAFETY
      ⟨[], none, 0, "2026-10-11", some ⟨0, 100, 1600000⟩⟩
      1000000 12 "2026-10-11" 0 0 { text := "hi" } (.posted "t")
      rfl).2.1 (by decide)⟩
